import Mathlib

/-!
Shallow embedding of `src/api/repos/releases.rs` (octocrab releases API):
the release builders, their serde serialization behaviour, route
construction, and the asset-upload request construction.
-/

namespace Octocrab

/-- JSON values as produced by serde serialization of the builder structs.
Only the shapes actually used by the builders are modelled. -/
inductive Json where
  | null : Json
  | str : String → Json
  | num : Nat → Json
  | bool : Bool → Json
deriving DecidableEq

/-- Serde treatment of a field marked
`#[serde(skip_serializing_if = "Option::is_none")]`: a `some` value becomes
one key/value pair, a `none` value is omitted entirely (never emitted as
`null`). -/
def optField (key : String) : Option Json → List (String × Json)
  | some v => [(key, v)]
  | none => []

/-- `MakeLatest` enum from the source (line 335), with
`#[serde(rename_all = "lowercase")]`. -/
inductive MakeLatest where
  | True
  | False
  | Legacy
deriving DecidableEq

/-- Serde serialization of `MakeLatest` under `rename_all = "lowercase"`:
each variant becomes the lowercase string token of its name. -/
def MakeLatest.serialize : MakeLatest → String
  | .True => "true"
  | .False => "false"
  | .Legacy => "legacy"

/-- Configuration state of `ListReleasesBuilder` (source line 273); the
serde-skipped `handler` back-reference carries no request data and is not
part of the configuration. -/
structure ListReleasesBuilder where
  per_page : Option Nat
  page : Option Nat
deriving DecidableEq

/-- `ListReleasesBuilder::new` (source line 283). -/
def ListReleasesBuilder.new : ListReleasesBuilder :=
  { per_page := none, page := none }

/-- `ListReleasesBuilder::per_page` setter (source line 292). -/
def ListReleasesBuilder.set_per_page (b : ListReleasesBuilder) (v : Nat) :
    ListReleasesBuilder :=
  { b with per_page := some v }

/-- `ListReleasesBuilder::page` setter (source line 298). -/
def ListReleasesBuilder.set_page (b : ListReleasesBuilder) (v : Nat) :
    ListReleasesBuilder :=
  { b with page := some v }

/-- Serde serialization of `ListReleasesBuilder`: both fields carry
`skip_serializing_if = "Option::is_none"`. -/
def ListReleasesBuilder.serializeFields (b : ListReleasesBuilder) :
    List (String × Json) :=
  optField "per_page" (b.per_page.map Json.num) ++
    optField "page" (b.page.map Json.num)

/-- Configuration state of `CreateReleaseBuilder` (source line 314):
mandatory `tag_name`, six optional fields. -/
structure CreateReleaseBuilder where
  tag_name : String
  target_commitish : Option String
  name : Option String
  body : Option String
  draft : Option Bool
  prerelease : Option Bool
  make_latest : Option MakeLatest
deriving DecidableEq

/-- `CreateReleaseBuilder::new` (source line 356). -/
def CreateReleaseBuilder.new (tag_name : String) : CreateReleaseBuilder :=
  { tag_name := tag_name, target_commitish := none, name := none,
    body := none, draft := none, prerelease := none, make_latest := none }

/-- `CreateReleaseBuilder::target_commitish` setter (source line 376). -/
def CreateReleaseBuilder.set_target_commitish (b : CreateReleaseBuilder)
    (v : String) : CreateReleaseBuilder :=
  { b with target_commitish := some v }

/-- `CreateReleaseBuilder::name` setter (source line 385). -/
def CreateReleaseBuilder.set_name (b : CreateReleaseBuilder) (v : String) :
    CreateReleaseBuilder :=
  { b with name := some v }

/-- `CreateReleaseBuilder::body` setter (source line 391). -/
def CreateReleaseBuilder.set_body (b : CreateReleaseBuilder) (v : String) :
    CreateReleaseBuilder :=
  { b with body := some v }

/-- `CreateReleaseBuilder::draft` setter (source line 397). -/
def CreateReleaseBuilder.set_draft (b : CreateReleaseBuilder) (v : Bool) :
    CreateReleaseBuilder :=
  { b with draft := some v }

/-- `CreateReleaseBuilder::prerelease` setter (source line 403). -/
def CreateReleaseBuilder.set_prerelease (b : CreateReleaseBuilder) (v : Bool) :
    CreateReleaseBuilder :=
  { b with prerelease := some v }

/-- `CreateReleaseBuilder::make_latest` setter (source line 412). -/
def CreateReleaseBuilder.set_make_latest (b : CreateReleaseBuilder)
    (v : MakeLatest) : CreateReleaseBuilder :=
  { b with make_latest := some v }

/-- Serde serialization of `CreateReleaseBuilder`: `handler` is skipped,
`tag_name` is always serialized, the six optional fields are serialized
only when `some`. -/
def CreateReleaseBuilder.serializeFields (b : CreateReleaseBuilder) :
    List (String × Json) :=
  ("tag_name", Json.str b.tag_name) ::
    (optField "target_commitish" (b.target_commitish.map Json.str) ++
      optField "name" (b.name.map Json.str) ++
      optField "body" (b.body.map Json.str) ++
      optField "draft" (b.draft.map Json.bool) ++
      optField "prerelease" (b.prerelease.map Json.bool) ++
      optField "make_latest"
        (b.make_latest.map (fun m => Json.str m.serialize)))

/-- Configuration state of `UpdateReleaseBuilder` (source line 428).
In the source only `handler` carries `#[serde(skip)]`; `release_id`
carries no serde attribute at all. -/
structure UpdateReleaseBuilder where
  release_id : Nat
  tag_name : Option String
  target_commitish : Option String
  name : Option String
  body : Option String
  draft : Option Bool
  prerelease : Option Bool
  make_latest : Option MakeLatest
deriving DecidableEq

/-- `UpdateReleaseBuilder::new` (source line 452). -/
def UpdateReleaseBuilder.new (release_id : Nat) : UpdateReleaseBuilder :=
  { release_id := release_id, tag_name := none, target_commitish := none,
    name := none, body := none, draft := none, prerelease := none,
    make_latest := none }

/-- `UpdateReleaseBuilder::tag_name` setter (source line 467). -/
def UpdateReleaseBuilder.set_tag_name (b : UpdateReleaseBuilder)
    (v : String) : UpdateReleaseBuilder :=
  { b with tag_name := some v }

/-- `UpdateReleaseBuilder::target_commitish` setter (source line 476). -/
def UpdateReleaseBuilder.set_target_commitish (b : UpdateReleaseBuilder)
    (v : String) : UpdateReleaseBuilder :=
  { b with target_commitish := some v }

/-- `UpdateReleaseBuilder::name` setter (source line 485). -/
def UpdateReleaseBuilder.set_name (b : UpdateReleaseBuilder) (v : String) :
    UpdateReleaseBuilder :=
  { b with name := some v }

/-- `UpdateReleaseBuilder::body` setter (source line 491). -/
def UpdateReleaseBuilder.set_body (b : UpdateReleaseBuilder) (v : String) :
    UpdateReleaseBuilder :=
  { b with body := some v }

/-- `UpdateReleaseBuilder::draft` setter (source line 497). -/
def UpdateReleaseBuilder.set_draft (b : UpdateReleaseBuilder) (v : Bool) :
    UpdateReleaseBuilder :=
  { b with draft := some v }

/-- `UpdateReleaseBuilder::prerelease` setter (source line 503). -/
def UpdateReleaseBuilder.set_prerelease (b : UpdateReleaseBuilder)
    (v : Bool) : UpdateReleaseBuilder :=
  { b with prerelease := some v }

/-- `UpdateReleaseBuilder::make_latest` setter (source line 511). -/
def UpdateReleaseBuilder.set_make_latest (b : UpdateReleaseBuilder)
    (v : MakeLatest) : UpdateReleaseBuilder :=
  { b with make_latest := some v }

/-- Serde serialization of `UpdateReleaseBuilder`: `handler` is skipped;
`release_id` has no skip attribute in the source, so serde serializes it
as an ordinary body field; the optional fields are serialized only when
`some`. -/
def UpdateReleaseBuilder.serializeFields (b : UpdateReleaseBuilder) :
    List (String × Json) :=
  ("release_id", Json.num b.release_id) ::
    (optField "tag_name" (b.tag_name.map Json.str) ++
      optField "target_commitish" (b.target_commitish.map Json.str) ++
      optField "name" (b.name.map Json.str) ++
      optField "body" (b.body.map Json.str) ++
      optField "draft" (b.draft.map Json.bool) ++
      optField "prerelease" (b.prerelease.map Json.bool) ++
      optField "make_latest"
        (b.make_latest.map (fun m => Json.str m.serialize)))

/-- Configuration state of `GenerateReleaseNotesBuilder` (source line 531). -/
structure GenerateReleaseNotesBuilder where
  tag_name : String
  previous_tag_name : Option String
  target_commitish : Option String
  configuration_file_path : Option String
deriving DecidableEq

/-- `GenerateReleaseNotesBuilder::new` (source line 570). -/
def GenerateReleaseNotesBuilder.new (tag_name : String) :
    GenerateReleaseNotesBuilder :=
  { tag_name := tag_name, previous_tag_name := none,
    target_commitish := none, configuration_file_path := none }

/-- `GenerateReleaseNotesBuilder::previous_tag_name` setter (source line 584). -/
def GenerateReleaseNotesBuilder.set_previous_tag_name
    (b : GenerateReleaseNotesBuilder) (v : String) :
    GenerateReleaseNotesBuilder :=
  { b with previous_tag_name := some v }

/-- `GenerateReleaseNotesBuilder::target_commitish` setter (source line 595). -/
def GenerateReleaseNotesBuilder.set_target_commitish
    (b : GenerateReleaseNotesBuilder) (v : String) :
    GenerateReleaseNotesBuilder :=
  { b with target_commitish := some v }

/-- `GenerateReleaseNotesBuilder::configuration_file_path` setter
(source line 605). -/
def GenerateReleaseNotesBuilder.set_configuration_file_path
    (b : GenerateReleaseNotesBuilder) (v : String) :
    GenerateReleaseNotesBuilder :=
  { b with configuration_file_path := some v }

/-- Serde serialization of `GenerateReleaseNotesBuilder`: `handler` is
skipped, `tag_name` always serialized, the three optional fields only
when `some`. -/
def GenerateReleaseNotesBuilder.serializeFields
    (b : GenerateReleaseNotesBuilder) : List (String × Json) :=
  ("tag_name", Json.str b.tag_name) ::
    (optField "previous_tag_name" (b.previous_tag_name.map Json.str) ++
      optField "target_commitish" (b.target_commitish.map Json.str) ++
      optField "configuration_file_path"
        (b.configuration_file_path.map Json.str))

/-- Configuration state of `ListReleaseAssetsBuilder` (source line 627);
both `handler` and `release_id` carry `#[serde(skip)]` there. -/
structure ListReleaseAssetsBuilder where
  release_id : Nat
  per_page : Option Nat
  page : Option Nat
deriving DecidableEq

/-- `ListReleaseAssetsBuilder::new` (source line 639). -/
def ListReleaseAssetsBuilder.new (release_id : Nat) :
    ListReleaseAssetsBuilder :=
  { release_id := release_id, per_page := none, page := none }

/-- `ListReleaseAssetsBuilder::per_page` setter (source line 649). -/
def ListReleaseAssetsBuilder.set_per_page (b : ListReleaseAssetsBuilder)
    (v : Nat) : ListReleaseAssetsBuilder :=
  { b with per_page := some v }

/-- `ListReleaseAssetsBuilder::page` setter (source line 655). -/
def ListReleaseAssetsBuilder.set_page (b : ListReleaseAssetsBuilder)
    (v : Nat) : ListReleaseAssetsBuilder :=
  { b with page := some v }

/-- Serde serialization of `ListReleaseAssetsBuilder`: `release_id` is
`#[serde(skip)]`, so only the two pagination options can appear. -/
def ListReleaseAssetsBuilder.serializeFields (b : ListReleaseAssetsBuilder) :
    List (String × Json) :=
  optField "per_page" (b.per_page.map Json.num) ++
    optField "page" (b.page.map Json.num)

/-- Configuration state of `UploadAssetBuilder` (source line 674); the
binary body is modelled as a list of bytes. -/
structure UploadAssetBuilder where
  release_id : Nat
  name : String
  body : List Nat
  label : Option String
deriving DecidableEq

/-- `UploadAssetBuilder::new` (source line 685). -/
def UploadAssetBuilder.new (release_id : Nat) (name : String)
    (body : List Nat) : UploadAssetBuilder :=
  { release_id := release_id, name := name, body := body, label := none }

/-- `UploadAssetBuilder::label` setter (source line 701). -/
def UploadAssetBuilder.set_label (b : UploadAssetBuilder) (v : String) :
    UploadAssetBuilder :=
  { b with label := some v }

/-- Route of `ReleasesHandler::list` and `create` (source lines 305, 419). -/
def listRoute (repo : String) : String :=
  "/" ++ repo ++ "/releases"

/-- Route of `ReleasesHandler::get` (source line 152). -/
def getByIdRoute (repo : String) (number : Nat) : String :=
  "/" ++ repo ++ "/releases/" ++ Nat.repr number

/-- Route of `UpdateReleaseBuilder::send` (source line 518). -/
def updateRoute (repo : String) (release_id : Nat) : String :=
  "/" ++ repo ++ "/releases/" ++ Nat.repr release_id

/-- Route of `ReleasesHandler::delete` (source line 262). -/
def deleteRoute (repo : String) (id : Nat) : String :=
  "/" ++ repo ++ "/releases/" ++ Nat.repr id

/-- Route of `ListReleaseAssetsBuilder::send` (source line 662). -/
def assetsRoute (repo : String) (release_id : Nat) : String :=
  "/" ++ repo ++ "/releases/" ++ Nat.repr release_id ++ "/assets"

/-- Whether `pat` occurs as a contiguous subsequence of the character
list, as Rust `str::contains` on the same pattern. -/
def containsSub (pat : List Char) : List Char → Bool
  | [] => pat.isEmpty
  | c :: rest => List.isPrefixOf pat (c :: rest) || containsSub pat rest

/-- Fuel-indexed worker for Rust `str::replace`: scans left to right and
replaces each non-overlapping occurrence of `pat` by `rep`. One unit of
fuel is spent per scanned position and every step consumes at least one
character, so fuel equal to the input length always suffices; the
`!pat.isEmpty` guard keeps a nonempty-pattern match well defined (the
source only ever uses the 13-character literal placeholder pattern). -/
def replaceAux (pat rep : List Char) : Nat → List Char → List Char
  | _, [] => []
  | 0, l => l
  | fuel + 1, c :: rest =>
    if List.isPrefixOf pat (c :: rest) && !pat.isEmpty then
      rep ++ replaceAux pat rep fuel (List.drop (pat.length - 1) rest)
    else
      c :: replaceAux pat rep fuel rest

/-- Rust `str::replace(pat, rep)` for a nonempty pattern, as used at
source line 714. -/
def rustReplace (s pat rep : String) : String :=
  String.mk (replaceAux pat.toList rep.toList s.toList.length s.toList)

/-- The literal placeholder substring a release upload-URL template
carries, written in the source at line 714. -/
def uploadPlaceholder : String := "\x7b?name,label\x7d"

/-- Upload target construction of `UploadAssetBuilder::send`
(source lines 712-719): strip the placeholder from the template, append
`?name=`, and when a label is set append `&label=`. -/
def uploadTarget (upload_url asset_name : String) (label : Option String) :
    String :=
  let base := rustReplace upload_url uploadPlaceholder "" ++ "?name=" ++
    asset_name
  match label with
  | some l => base ++ "&label=" ++ l
  | none => base

/-- Error kinds surfaced by the releases API, following the error
enumeration of the spec and the snafu contexts of the source:
transport failure, non-success remote status, response decode failure,
upload-URI parse failure (`UriParseSnafu`, source line 724), and http
request construction failure (`HttpSnafu`, source line 731). -/
inductive OctoError where
  | transport
  | remote (status : Nat)
  | decode
  | uriParse
  | http
deriving DecidableEq

/-- The fields of a deserialized `Release` the embedded code inspects. -/
structure Release where
  id : Nat
  tag_name : String
  upload_url : String
deriving DecidableEq

/-- The fields of a deserialized `Asset` the embedded code returns. -/
structure Asset where
  id : Nat
  name : String
  label : Option String
deriving DecidableEq

/-- The observable parts of the raw upload POST request built at source
lines 725-731. -/
structure HttpRequest where
  method : String
  uri : String
  contentType : Option String
  contentLength : Option Nat
  body : List Nat
deriving DecidableEq

/-- Modelled from the spec: the shared HTTP transport collaborator
(`Octocrab` / `crab`), which lives outside this file's source. `getRelease`
is the GET of a release route decoded as a `Release`; `uriOk` is whether a
string parses as a valid URI (`http::Uri::try_into`); `execute` runs a raw
request and decodes an `Asset`; `deleteCall` issues a DELETE to a route,
yielding unit on success and, per the spec, a `remote` error carrying the
original status on a non-success response. -/
structure Transport where
  getRelease : String → Except OctoError Release
  uriOk : String → Bool
  execute : HttpRequest → Except OctoError Asset
  deleteCall : String → Except OctoError Unit

/-- `UploadAssetBuilder::send` (source lines 707-734), instrumented with
the list of upload POST requests actually issued: first fetch the release
by id (aborting on error), build the upload target from its
`upload_url`, fail with `uriParse` when the target does not parse as a
URI, otherwise issue exactly one POST carrying the octet-stream content
type, the exact body length, and the raw body. -/
def UploadAssetBuilder.send (t : Transport) (repo : String)
    (b : UploadAssetBuilder) : Except OctoError Asset × List HttpRequest :=
  match t.getRelease (getByIdRoute repo b.release_id) with
  | .error e => (.error e, [])
  | .ok release =>
    let url := uploadTarget release.upload_url b.name b.label
    if t.uriOk url then
      let request : HttpRequest :=
        { method := "POST", uri := url,
          contentType := some "application/octet-stream",
          contentLength := some b.body.length,
          body := b.body }
      (t.execute request, [request])
    else
      (.error .uriParse, [])

/-- The facade state: the repository identifier every route is built
from (`handler.repo`, an `owner/repo` string). -/
structure ReleasesHandler where
  repo : String
deriving DecidableEq

/-- `ReleasesHandler::delete` (source lines 261-266): issue a DELETE to
the release route, propagate any error, and discard the successful
response in favour of unit. -/
def ReleasesHandler.delete (h : ReleasesHandler) (t : Transport)
    (id : Nat) : Except OctoError Unit :=
  match t.deleteCall (deleteRoute h.repo id) with
  | .ok _ => .ok ()
  | .error e => .error e

/-- A release whose upload-URL template carries the literal placeholder,
used as concrete test data. -/
def okRelease : Release :=
  { id := 1, tag_name := "v1.0.0",
    upload_url := "https://host/upload\x7b?name,label\x7d" }

/-- A transport whose every call succeeds, serving `okRelease`. -/
def okTransport : Transport :=
  { getRelease := fun _ => .ok okRelease,
    uriOk := fun _ => true,
    execute := fun _ => .ok { id := 2, name := "a.tar.gz", label := none },
    deleteCall := fun _ => .ok () }

/-- A transport whose every call fails with a remote 404 status. -/
def errTransport : Transport :=
  { getRelease := fun _ => .error (.remote 404),
    uriOk := fun _ => true,
    execute := fun _ => .error .transport,
    deleteCall := fun _ => .error (.remote 404) }

/-- A transport that serves `okRelease` but rejects every URI as
unparseable. -/
def badUriTransport : Transport :=
  { okTransport with uriOk := fun _ => false }

/-- When the pattern does not occur in the input, the scan never matches
and the input is returned unchanged, for any amount of fuel. -/
theorem replaceAux_of_not_contains (pat rep : List Char) (fuel : Nat)
    (l : List Char) (h : containsSub pat l = false) :
    replaceAux pat rep fuel l = l := by
  induction fuel generalizing l with
  | zero => cases l <;> rfl
  | succ n ih =>
    cases l with
    | nil => rfl
    | cons c rest =>
      simp only [containsSub, Bool.or_eq_false_iff] at h
      simp [replaceAux, h.1, ih rest h.2]

/-- The serialized field names of `ListReleasesBuilder` are exactly the
optional fields that are set, in declaration order. -/
theorem listReleases_names_eq (b : ListReleasesBuilder) :
    (b.serializeFields).map Prod.fst =
      (if b.per_page.isSome then ["per_page"] else []) ++
      (if b.page.isSome then ["page"] else []) := by
  rcases b with ⟨pp, pg⟩
  cases pp <;> cases pg <;> rfl

/-- `ListReleasesBuilder` never serializes a `null` value. -/
theorem listReleases_no_null (b : ListReleasesBuilder) :
    ((b.serializeFields).map Prod.snd).contains Json.null = false := by
  rcases b with ⟨pp, pg⟩
  cases pp <;> cases pg <;> rfl

/-- The serialized field names of `CreateReleaseBuilder` are the
mandatory `tag_name` followed by exactly the optional fields that are
set, in declaration order. -/
theorem createRelease_names_eq (b : CreateReleaseBuilder) :
    (b.serializeFields).map Prod.fst =
      "tag_name" ::
        ((if b.target_commitish.isSome then ["target_commitish"] else []) ++
          (if b.name.isSome then ["name"] else []) ++
          (if b.body.isSome then ["body"] else []) ++
          (if b.draft.isSome then ["draft"] else []) ++
          (if b.prerelease.isSome then ["prerelease"] else []) ++
          (if b.make_latest.isSome then ["make_latest"] else [])) := by
  rcases b with ⟨t, tc, nm, bd, dr, pr, ml⟩
  cases tc <;> cases nm <;> cases bd <;> cases dr <;> cases pr <;>
    cases ml <;> rfl

/-- `CreateReleaseBuilder` never serializes a `null` value. -/
theorem createRelease_no_null (b : CreateReleaseBuilder) :
    ((b.serializeFields).map Prod.snd).contains Json.null = false := by
  rcases b with ⟨t, tc, nm, bd, dr, pr, ml⟩
  cases tc <;> cases nm <;> cases bd <;> cases dr <;> cases pr <;>
    cases ml <;> rfl

/-- The serialized field names of `UpdateReleaseBuilder` are the
(unskipped) `release_id` followed by exactly the optional fields that
are set, in declaration order. -/
theorem updateRelease_names_eq (b : UpdateReleaseBuilder) :
    (b.serializeFields).map Prod.fst =
      "release_id" ::
        ((if b.tag_name.isSome then ["tag_name"] else []) ++
          (if b.target_commitish.isSome then ["target_commitish"] else []) ++
          (if b.name.isSome then ["name"] else []) ++
          (if b.body.isSome then ["body"] else []) ++
          (if b.draft.isSome then ["draft"] else []) ++
          (if b.prerelease.isSome then ["prerelease"] else []) ++
          (if b.make_latest.isSome then ["make_latest"] else [])) := by
  rcases b with ⟨rid, tn, tc, nm, bd, dr, pr, ml⟩
  cases tn <;> cases tc <;> cases nm <;> cases bd <;> cases dr <;>
    cases pr <;> cases ml <;> rfl

/-- `UpdateReleaseBuilder` never serializes a `null` value. -/
theorem updateRelease_no_null (b : UpdateReleaseBuilder) :
    ((b.serializeFields).map Prod.snd).contains Json.null = false := by
  rcases b with ⟨rid, tn, tc, nm, bd, dr, pr, ml⟩
  cases tn <;> cases tc <;> cases nm <;> cases bd <;> cases dr <;>
    cases pr <;> cases ml <;> rfl

/-- The serialized field names of `GenerateReleaseNotesBuilder` are the
mandatory `tag_name` followed by exactly the optional fields that are
set, in declaration order. -/
theorem generateNotes_names_eq
    (b : GenerateReleaseNotesBuilder) :
    (b.serializeFields).map Prod.fst =
      "tag_name" ::
        ((if b.previous_tag_name.isSome then ["previous_tag_name"] else []) ++
          (if b.target_commitish.isSome then ["target_commitish"] else []) ++
          (if b.configuration_file_path.isSome
            then ["configuration_file_path"] else [])) := by
  rcases b with ⟨t, pt, tc, cf⟩
  cases pt <;> cases tc <;> cases cf <;> rfl

/-- `GenerateReleaseNotesBuilder` never serializes a `null` value. -/
theorem generateNotes_no_null (b : GenerateReleaseNotesBuilder) :
    ((b.serializeFields).map Prod.snd).contains Json.null = false := by
  rcases b with ⟨t, pt, tc, cf⟩
  cases pt <;> cases tc <;> cases cf <;> rfl

/-- The serialized field names of `ListReleaseAssetsBuilder` are exactly
the optional pagination fields that are set (its `release_id` is
serde-skipped), in declaration order. -/
theorem listAssets_names_eq (b : ListReleaseAssetsBuilder) :
    (b.serializeFields).map Prod.fst =
      (if b.per_page.isSome then ["per_page"] else []) ++
      (if b.page.isSome then ["page"] else []) := by
  rcases b with ⟨rid, pp, pg⟩
  cases pp <;> cases pg <;> rfl

/-- `ListReleaseAssetsBuilder` never serializes a `null` value. -/
theorem listAssets_no_null (b : ListReleaseAssetsBuilder) :
    ((b.serializeFields).map Prod.snd).contains Json.null = false := by
  rcases b with ⟨rid, pp, pg⟩
  cases pp <;> cases pg <;> rfl

/-- C1 counterexample: finalizing `update(7)` with zero optional fields
set serializes a PATCH body whose single field is `release_id` — in the
source only the `handler` field carries `#[serde(skip)]`, so `release_id`
IS serialized as a body field, contradicting the claim that it appears
only in the request path. -/
theorem C1_counterexample :
    UpdateReleaseBuilder.serializeFields (UpdateReleaseBuilder.new 7) =
      [("release_id", Json.num 7)] ∧
    ("release_id", Json.num 7) ∈
      UpdateReleaseBuilder.serializeFields (UpdateReleaseBuilder.new 7) := by
  exact ⟨rfl, by decide⟩

/-- C1 (amended): the mandatory `release_id` appears in the PATCH request
path and is ALSO always serialized as a `release_id` field of the JSON
request body; an `update(id)` finalized with zero optional fields set
produces a body whose only field is `release_id`. -/
theorem C1_amended (rid : Nat) :
    UpdateReleaseBuilder.serializeFields (UpdateReleaseBuilder.new rid) =
      [("release_id", Json.num rid)] ∧
    (∀ b : UpdateReleaseBuilder,
      ("release_id", Json.num b.release_id) ∈ b.serializeFields) ∧
    (∀ repo, updateRoute repo rid =
      "/" ++ repo ++ "/releases/" ++ Nat.repr rid) := by
  refine ⟨rfl, fun b => ?_, fun repo => rfl⟩
  simp [UpdateReleaseBuilder.serializeFields]

/-- C2: for every builder and every combination of its optional fields,
the serialized body/query carries exactly the fields set on the builder
(mandatory seeds included), unset optional fields are omitted entirely
and never emitted as `null`; `list()` and `assets(id)` with neither
pagination option set serialize no parameters at all. -/
theorem C2_exactly_set_fields_serialized :
    (∀ b : ListReleasesBuilder,
      ((b.serializeFields).map Prod.fst =
        (if b.per_page.isSome then ["per_page"] else []) ++
        (if b.page.isSome then ["page"] else [])) ∧
      ((b.serializeFields).map Prod.snd).contains Json.null = false) ∧
    (∀ b : CreateReleaseBuilder,
      ((b.serializeFields).map Prod.fst =
        "tag_name" ::
          ((if b.target_commitish.isSome then ["target_commitish"] else []) ++
            (if b.name.isSome then ["name"] else []) ++
            (if b.body.isSome then ["body"] else []) ++
            (if b.draft.isSome then ["draft"] else []) ++
            (if b.prerelease.isSome then ["prerelease"] else []) ++
            (if b.make_latest.isSome then ["make_latest"] else []))) ∧
      ((b.serializeFields).map Prod.snd).contains Json.null = false) ∧
    (∀ b : UpdateReleaseBuilder,
      ((b.serializeFields).map Prod.fst =
        "release_id" ::
          ((if b.tag_name.isSome then ["tag_name"] else []) ++
            (if b.target_commitish.isSome then ["target_commitish"] else []) ++
            (if b.name.isSome then ["name"] else []) ++
            (if b.body.isSome then ["body"] else []) ++
            (if b.draft.isSome then ["draft"] else []) ++
            (if b.prerelease.isSome then ["prerelease"] else []) ++
            (if b.make_latest.isSome then ["make_latest"] else []))) ∧
      ((b.serializeFields).map Prod.snd).contains Json.null = false) ∧
    (∀ b : GenerateReleaseNotesBuilder,
      ((b.serializeFields).map Prod.fst =
        "tag_name" ::
          ((if b.previous_tag_name.isSome
            then ["previous_tag_name"] else []) ++
            (if b.target_commitish.isSome then ["target_commitish"] else []) ++
            (if b.configuration_file_path.isSome
              then ["configuration_file_path"] else []))) ∧
      ((b.serializeFields).map Prod.snd).contains Json.null = false) ∧
    (∀ b : ListReleaseAssetsBuilder,
      ((b.serializeFields).map Prod.fst =
        (if b.per_page.isSome then ["per_page"] else []) ++
        (if b.page.isSome then ["page"] else [])) ∧
      ((b.serializeFields).map Prod.snd).contains Json.null = false) ∧
    ListReleasesBuilder.new.serializeFields = [] ∧
    (∀ rid, (ListReleaseAssetsBuilder.new rid).serializeFields = []) :=
  ⟨fun b => ⟨listReleases_names_eq b, listReleases_no_null b⟩,
    fun b => ⟨createRelease_names_eq b, createRelease_no_null b⟩,
    fun b => ⟨updateRelease_names_eq b, updateRelease_no_null b⟩,
    fun b => ⟨generateNotes_names_eq b,
      generateNotes_no_null b⟩,
    fun b => ⟨listAssets_names_eq b,
      listAssets_no_null b⟩,
    rfl, fun _ => rfl⟩

/-- C3: the upload target is the template with the placeholder removed,
then `?name=` appended, then `&label=` appended when a label is set; at
the template `https://host/upload` + placeholder with asset name
`a.tar.gz` the target is exactly the two strings the claim names. -/
theorem C3_upload_target_construction :
    (∀ url n : String, uploadTarget url n none =
      rustReplace url uploadPlaceholder "" ++ "?name=" ++ n) ∧
    (∀ url n l : String, uploadTarget url n (some l) =
      rustReplace url uploadPlaceholder "" ++ "?name=" ++ n ++
        "&label=" ++ l) ∧
    uploadTarget "https://host/upload\x7b?name,label\x7d" "a.tar.gz" none =
      "https://host/upload?name=a.tar.gz" ∧
    uploadTarget "https://host/upload\x7b?name,label\x7d" "a.tar.gz"
        (some "L") =
      "https://host/upload?name=a.tar.gz&label=L" :=
  ⟨fun _ _ => rfl, fun _ _ _ => rfl, by decide, by decide⟩

/-- C5: when the upload-URL template does not contain the placeholder,
stripping is a silent no-op and the upload target is the unmodified
template with `?name=` and the optional `&label=` appended. -/
theorem C5_no_placeholder_is_noop (url n : String)
    (h : containsSub uploadPlaceholder.toList url.toList = false) :
    rustReplace url uploadPlaceholder "" = url ∧
    uploadTarget url n none = url ++ "?name=" ++ n ∧
    (∀ l, uploadTarget url n (some l) =
      url ++ "?name=" ++ n ++ "&label=" ++ l) := by
  have hrep : rustReplace url uploadPlaceholder "" = url := by
    unfold rustReplace
    rw [replaceAux_of_not_contains _ _ _ _ h]
    rfl
  refine ⟨hrep, ?_, fun l => ?_⟩ <;> simp [uploadTarget, hrep]

/-- C5 witness at a concrete template without the placeholder. -/
theorem C5_witness :
    containsSub uploadPlaceholder.toList "https://host/upload".toList =
      false ∧
    uploadTarget "https://host/upload" "a.tar.gz" none =
      "https://host/upload?name=a.tar.gz" :=
  ⟨by decide,
    (C5_no_placeholder_is_noop "https://host/upload" "a.tar.gz"
      (by decide)).2.1⟩

/-- C8: each `MakeLatest` variant serializes to exactly the lowercase
token of its name, and that token is what a builder body carries in its
`make_latest` field. -/
theorem C8_make_latest_lowercase_tokens :
    MakeLatest.serialize .True = "true" ∧
    MakeLatest.serialize .False = "false" ∧
    MakeLatest.serialize .Legacy = "legacy" ∧
    (∀ (b : CreateReleaseBuilder) (m : MakeLatest),
      ("make_latest", Json.str m.serialize) ∈
        (b.set_make_latest m).serializeFields) := by
  refine ⟨rfl, rfl, rfl, fun b m => ?_⟩
  simp [CreateReleaseBuilder.serializeFields,
    CreateReleaseBuilder.set_make_latest, optField]

/-- C4: when the initial release fetch of `UploadAssetBuilder::send`
returns an error, the upload aborts with exactly that error and no
upload POST request is constructed or issued. -/
theorem C4_fetch_error_aborts_upload (t : Transport) (repo : String)
    (b : UploadAssetBuilder) (e : OctoError)
    (h : t.getRelease (getByIdRoute repo b.release_id) = .error e) :
    UploadAssetBuilder.send t repo b = (.error e, []) := by
  simp [UploadAssetBuilder.send, h]

/-- C4 witness: against a transport whose release fetch fails with a
remote 404, the upload yields that error and issues no POST. -/
theorem C4_witness :
    UploadAssetBuilder.send errTransport "o/r"
      (UploadAssetBuilder.new 1 "a.tar.gz" []) =
      (.error (.remote 404), []) :=
  C4_fetch_error_aborts_upload errTransport "o/r"
    (UploadAssetBuilder.new 1 "a.tar.gz" []) (.remote 404) rfl

/-- C6: when the constructed upload target does not parse as a URI, the
upload yields the dedicated `uriParse` error — a constructor distinct
from the transport, remote-status and decode errors — and no POST is
issued. -/
theorem C6_uri_parse_error_distinct (t : Transport) (repo : String)
    (b : UploadAssetBuilder) (rel : Release)
    (h1 : t.getRelease (getByIdRoute repo b.release_id) = .ok rel)
    (h2 : t.uriOk (uploadTarget rel.upload_url b.name b.label) = false) :
    UploadAssetBuilder.send t repo b = (.error .uriParse, []) ∧
    OctoError.uriParse ≠ OctoError.transport ∧
    (∀ s, OctoError.uriParse ≠ OctoError.remote s) ∧
    OctoError.uriParse ≠ OctoError.decode := by
  refine ⟨?_, by simp, fun s => by simp, by simp⟩
  simp [UploadAssetBuilder.send, h1, h2]

/-- C6 witness: against a transport that rejects every URI, the upload
yields `uriParse` and issues no POST. -/
theorem C6_witness :
    UploadAssetBuilder.send badUriTransport "o/r"
      (UploadAssetBuilder.new 1 "a.tar.gz" []) =
      (.error .uriParse, []) :=
  (C6_uri_parse_error_distinct badUriTransport "o/r"
    (UploadAssetBuilder.new 1 "a.tar.gz" []) okRelease rfl rfl).1

/-- C7: when the release fetch succeeds and the target parses, the
upload issues exactly one POST whose content type is
`application/octet-stream`, whose content length is the exact byte
length of the supplied body, and whose body is the raw bytes. -/
theorem C7_upload_request_headers (t : Transport) (repo : String)
    (b : UploadAssetBuilder) (rel : Release)
    (h1 : t.getRelease (getByIdRoute repo b.release_id) = .ok rel)
    (h2 : t.uriOk (uploadTarget rel.upload_url b.name b.label) = true) :
    (UploadAssetBuilder.send t repo b).2 =
      [{ method := "POST",
         uri := uploadTarget rel.upload_url b.name b.label,
         contentType := some "application/octet-stream",
         contentLength := some b.body.length,
         body := b.body }] := by
  simp [UploadAssetBuilder.send, h1, h2]

/-- C7 witness: uploading an empty body issues one POST with content
length 0 and the octet-stream content type. -/
theorem C7_witness :
    (UploadAssetBuilder.send okTransport "o/r"
        (UploadAssetBuilder.new 1 "a.tar.gz" [])).2 =
      [{ method := "POST", uri := "https://host/upload?name=a.tar.gz",
         contentType := some "application/octet-stream",
         contentLength := some 0, body := [] }] := by
  rw [C7_upload_request_headers okTransport "o/r"
    (UploadAssetBuilder.new 1 "a.tar.gz" []) okRelease rfl rfl]
  decide

/-- C9: `delete(id)` targets the release route and, on a confirmed
success, returns unit with no error; a remote rejection surfaces the
`remote` error carrying the original status unchanged. -/
theorem C9_delete_result (t : Transport) (repo : String) (id : Nat) :
    deleteRoute repo id = "/" ++ repo ++ "/releases/" ++ Nat.repr id ∧
    (t.deleteCall (deleteRoute repo id) = .ok () →
      ReleasesHandler.delete ⟨repo⟩ t id = .ok ()) ∧
    (∀ s, t.deleteCall (deleteRoute repo id) = .error (.remote s) →
      ReleasesHandler.delete ⟨repo⟩ t id = .error (.remote s)) := by
  refine ⟨rfl, fun h => ?_, fun s h => ?_⟩ <;>
    simp [ReleasesHandler.delete, h]

/-- C9 witness: a confirming transport yields unit, a rejecting
transport yields the remote 404 error. -/
theorem C9_witness :
    ReleasesHandler.delete ⟨"o/r"⟩ okTransport 3 = .ok () ∧
    ReleasesHandler.delete ⟨"o/r"⟩ errTransport 3 =
      .error (.remote 404) :=
  ⟨(C9_delete_result okTransport "o/r" 3).2.1 rfl,
    (C9_delete_result errTransport "o/r" 3).2.2 404 rfl⟩

/-- C10: every builder setter is last-write-wins (setting a field twice
equals setting it once with the second value) and frame-preserving
(every other configuration field is left unchanged). -/
theorem C10_setters_last_write_wins_and_frame :
    (∀ (b : ListReleasesBuilder) (a a2 : Nat),
      (b.set_per_page a).set_per_page a2 = b.set_per_page a2) ∧
    (∀ (b : ListReleasesBuilder) (a : Nat),
      (b.set_per_page a).page = b.page) ∧
    (∀ (b : ListReleasesBuilder) (a a2 : Nat),
      (b.set_page a).set_page a2 = b.set_page a2) ∧
    (∀ (b : ListReleasesBuilder) (a : Nat),
      (b.set_page a).per_page = b.per_page) ∧
    (∀ (b : CreateReleaseBuilder) (a a2 : String),
      (b.set_target_commitish a).set_target_commitish a2 =
        b.set_target_commitish a2) ∧
    (∀ (b : CreateReleaseBuilder) (a : String),
      ((b.set_target_commitish a).tag_name, (b.set_target_commitish a).name,
        (b.set_target_commitish a).body, (b.set_target_commitish a).draft,
        (b.set_target_commitish a).prerelease,
        (b.set_target_commitish a).make_latest) =
      (b.tag_name, b.name, b.body, b.draft, b.prerelease, b.make_latest)) ∧
    (∀ (b : CreateReleaseBuilder) (a a2 : String),
      (b.set_name a).set_name a2 = b.set_name a2) ∧
    (∀ (b : CreateReleaseBuilder) (a : String),
      ((b.set_name a).tag_name, (b.set_name a).target_commitish,
        (b.set_name a).body, (b.set_name a).draft,
        (b.set_name a).prerelease, (b.set_name a).make_latest) =
      (b.tag_name, b.target_commitish, b.body, b.draft, b.prerelease,
        b.make_latest)) ∧
    (∀ (b : CreateReleaseBuilder) (a a2 : String),
      (b.set_body a).set_body a2 = b.set_body a2) ∧
    (∀ (b : CreateReleaseBuilder) (a : String),
      ((b.set_body a).tag_name, (b.set_body a).target_commitish,
        (b.set_body a).name, (b.set_body a).draft,
        (b.set_body a).prerelease, (b.set_body a).make_latest) =
      (b.tag_name, b.target_commitish, b.name, b.draft, b.prerelease,
        b.make_latest)) ∧
    (∀ (b : CreateReleaseBuilder) (a a2 : Bool),
      (b.set_draft a).set_draft a2 = b.set_draft a2) ∧
    (∀ (b : CreateReleaseBuilder) (a : Bool),
      ((b.set_draft a).tag_name, (b.set_draft a).target_commitish,
        (b.set_draft a).name, (b.set_draft a).body,
        (b.set_draft a).prerelease, (b.set_draft a).make_latest) =
      (b.tag_name, b.target_commitish, b.name, b.body, b.prerelease,
        b.make_latest)) ∧
    (∀ (b : CreateReleaseBuilder) (a a2 : Bool),
      (b.set_prerelease a).set_prerelease a2 = b.set_prerelease a2) ∧
    (∀ (b : CreateReleaseBuilder) (a : Bool),
      ((b.set_prerelease a).tag_name, (b.set_prerelease a).target_commitish,
        (b.set_prerelease a).name, (b.set_prerelease a).body,
        (b.set_prerelease a).draft, (b.set_prerelease a).make_latest) =
      (b.tag_name, b.target_commitish, b.name, b.body, b.draft,
        b.make_latest)) ∧
    (∀ (b : CreateReleaseBuilder) (a a2 : MakeLatest),
      (b.set_make_latest a).set_make_latest a2 = b.set_make_latest a2) ∧
    (∀ (b : CreateReleaseBuilder) (a : MakeLatest),
      ((b.set_make_latest a).tag_name, (b.set_make_latest a).target_commitish,
        (b.set_make_latest a).name, (b.set_make_latest a).body,
        (b.set_make_latest a).draft, (b.set_make_latest a).prerelease) =
      (b.tag_name, b.target_commitish, b.name, b.body, b.draft,
        b.prerelease)) ∧
    (∀ (b : UpdateReleaseBuilder) (a a2 : String),
      (b.set_tag_name a).set_tag_name a2 = b.set_tag_name a2) ∧
    (∀ (b : UpdateReleaseBuilder) (a : String),
      ((b.set_tag_name a).release_id, (b.set_tag_name a).target_commitish,
        (b.set_tag_name a).name, (b.set_tag_name a).body,
        (b.set_tag_name a).draft, (b.set_tag_name a).prerelease,
        (b.set_tag_name a).make_latest) =
      (b.release_id, b.target_commitish, b.name, b.body, b.draft,
        b.prerelease, b.make_latest)) ∧
    (∀ (b : UpdateReleaseBuilder) (a a2 : String),
      (b.set_target_commitish a).set_target_commitish a2 =
        b.set_target_commitish a2) ∧
    (∀ (b : UpdateReleaseBuilder) (a : String),
      ((b.set_target_commitish a).release_id,
        (b.set_target_commitish a).tag_name, (b.set_target_commitish a).name,
        (b.set_target_commitish a).body, (b.set_target_commitish a).draft,
        (b.set_target_commitish a).prerelease,
        (b.set_target_commitish a).make_latest) =
      (b.release_id, b.tag_name, b.name, b.body, b.draft, b.prerelease,
        b.make_latest)) ∧
    (∀ (b : UpdateReleaseBuilder) (a a2 : String),
      (b.set_name a).set_name a2 = b.set_name a2) ∧
    (∀ (b : UpdateReleaseBuilder) (a : String),
      ((b.set_name a).release_id, (b.set_name a).tag_name,
        (b.set_name a).target_commitish, (b.set_name a).body,
        (b.set_name a).draft, (b.set_name a).prerelease,
        (b.set_name a).make_latest) =
      (b.release_id, b.tag_name, b.target_commitish, b.body, b.draft,
        b.prerelease, b.make_latest)) ∧
    (∀ (b : UpdateReleaseBuilder) (a a2 : String),
      (b.set_body a).set_body a2 = b.set_body a2) ∧
    (∀ (b : UpdateReleaseBuilder) (a : String),
      ((b.set_body a).release_id, (b.set_body a).tag_name,
        (b.set_body a).target_commitish, (b.set_body a).name,
        (b.set_body a).draft, (b.set_body a).prerelease,
        (b.set_body a).make_latest) =
      (b.release_id, b.tag_name, b.target_commitish, b.name, b.draft,
        b.prerelease, b.make_latest)) ∧
    (∀ (b : UpdateReleaseBuilder) (a a2 : Bool),
      (b.set_draft a).set_draft a2 = b.set_draft a2) ∧
    (∀ (b : UpdateReleaseBuilder) (a : Bool),
      ((b.set_draft a).release_id, (b.set_draft a).tag_name,
        (b.set_draft a).target_commitish, (b.set_draft a).name,
        (b.set_draft a).body, (b.set_draft a).prerelease,
        (b.set_draft a).make_latest) =
      (b.release_id, b.tag_name, b.target_commitish, b.name, b.body,
        b.prerelease, b.make_latest)) ∧
    (∀ (b : UpdateReleaseBuilder) (a a2 : Bool),
      (b.set_prerelease a).set_prerelease a2 = b.set_prerelease a2) ∧
    (∀ (b : UpdateReleaseBuilder) (a : Bool),
      ((b.set_prerelease a).release_id, (b.set_prerelease a).tag_name,
        (b.set_prerelease a).target_commitish, (b.set_prerelease a).name,
        (b.set_prerelease a).body, (b.set_prerelease a).draft,
        (b.set_prerelease a).make_latest) =
      (b.release_id, b.tag_name, b.target_commitish, b.name, b.body,
        b.draft, b.make_latest)) ∧
    (∀ (b : UpdateReleaseBuilder) (a a2 : MakeLatest),
      (b.set_make_latest a).set_make_latest a2 = b.set_make_latest a2) ∧
    (∀ (b : UpdateReleaseBuilder) (a : MakeLatest),
      ((b.set_make_latest a).release_id, (b.set_make_latest a).tag_name,
        (b.set_make_latest a).target_commitish, (b.set_make_latest a).name,
        (b.set_make_latest a).body, (b.set_make_latest a).draft,
        (b.set_make_latest a).prerelease) =
      (b.release_id, b.tag_name, b.target_commitish, b.name, b.body,
        b.draft, b.prerelease)) ∧
    (∀ (b : GenerateReleaseNotesBuilder) (a a2 : String),
      (b.set_previous_tag_name a).set_previous_tag_name a2 =
        b.set_previous_tag_name a2) ∧
    (∀ (b : GenerateReleaseNotesBuilder) (a : String),
      ((b.set_previous_tag_name a).tag_name,
        (b.set_previous_tag_name a).target_commitish,
        (b.set_previous_tag_name a).configuration_file_path) =
      (b.tag_name, b.target_commitish, b.configuration_file_path)) ∧
    (∀ (b : GenerateReleaseNotesBuilder) (a a2 : String),
      (b.set_target_commitish a).set_target_commitish a2 =
        b.set_target_commitish a2) ∧
    (∀ (b : GenerateReleaseNotesBuilder) (a : String),
      ((b.set_target_commitish a).tag_name,
        (b.set_target_commitish a).previous_tag_name,
        (b.set_target_commitish a).configuration_file_path) =
      (b.tag_name, b.previous_tag_name, b.configuration_file_path)) ∧
    (∀ (b : GenerateReleaseNotesBuilder) (a a2 : String),
      (b.set_configuration_file_path a).set_configuration_file_path a2 =
        b.set_configuration_file_path a2) ∧
    (∀ (b : GenerateReleaseNotesBuilder) (a : String),
      ((b.set_configuration_file_path a).tag_name,
        (b.set_configuration_file_path a).previous_tag_name,
        (b.set_configuration_file_path a).target_commitish) =
      (b.tag_name, b.previous_tag_name, b.target_commitish)) ∧
    (∀ (b : ListReleaseAssetsBuilder) (a a2 : Nat),
      (b.set_per_page a).set_per_page a2 = b.set_per_page a2) ∧
    (∀ (b : ListReleaseAssetsBuilder) (a : Nat),
      ((b.set_per_page a).release_id, (b.set_per_page a).page) =
      (b.release_id, b.page)) ∧
    (∀ (b : ListReleaseAssetsBuilder) (a a2 : Nat),
      (b.set_page a).set_page a2 = b.set_page a2) ∧
    (∀ (b : ListReleaseAssetsBuilder) (a : Nat),
      ((b.set_page a).release_id, (b.set_page a).per_page) =
      (b.release_id, b.per_page)) ∧
    (∀ (b : UploadAssetBuilder) (a a2 : String),
      (b.set_label a).set_label a2 = b.set_label a2) ∧
    (∀ (b : UploadAssetBuilder) (a : String),
      ((b.set_label a).release_id, (b.set_label a).name,
        (b.set_label a).body) =
      (b.release_id, b.name, b.body)) := by
  repeat' apply And.intro
  all_goals intros
  all_goals rfl

end Octocrab
